import Mathlib

/-
Verification development for the PNS router collision core
(src/pcbnew/router/pns_item.cpp) and the obstacle de-duplication helper of
the surrounding tooling (src/qa/tools/pns/pns_log_file.cpp).

The embedding is shallow: C++ objects become Lean structures, object
identity (pointer comparison) becomes a `uid : Nat` field, the external
geometric shape layer and the router interface become explicit oracles
carried in an `ENV` record, and the mutable COLLISION_SEARCH_CONTEXT is
threaded through the functions as state.  Machine integers of the source
are modelled as unbounded `Int` (no overflow is exercised by the margins
under study).  A call of `ITEM::collideSimple` with a null context pointer
dereferences that pointer in a debug printf at pns_item.cpp:62 before any
null check; this crash is modelled by an outer `Option` on the result.
-/

/-- 2-D integer vector, standing in for `VECTOR2I` of the shape layer. -/
structure VECTOR2I where
  x : Int
  y : Int
deriving DecidableEq, Repr

/-- Opaque handle standing in for a `SHAPE*` of the external geometric
shape layer; all geometric behaviour flows through the oracles in `ENV`. -/
structure SHAPE where
  sid : Nat
deriving DecidableEq, Repr

/-- Inclusive layer span of an item (`LAYER_RANGE` of pns_layerset.h,
which is not part of this source snapshot). -/
structure LAYER_RANGE where
  Start : Int
  End : Int
deriving DecidableEq, Repr

/-- Modelled from the spec: "a layer range (ordered pair of layer indices,
inclusive)"; two ranges overlap when the intervals intersect.  The
accessor `LAYER_RANGE::Overlaps` is declared in pns_layerset.h, which is
missing from src/. -/
def LAYER_RANGE.Overlaps (a b : LAYER_RANGE) : Bool :=
  decide (a.Start ≤ b.End) && decide (b.Start ≤ a.End)

/-- Modelled from the spec: "a zero-width range denotes a single-layer
item"; `IsMultilayer` is declared in pns_layerset.h, missing from src/. -/
def LAYER_RANGE.IsMultilayer (a : LAYER_RANGE) : Bool :=
  decide (a.Start ≠ a.End)

/-- Board-item type tags consulted by the keepout filter
(`PCB_ARC_T`, `PCB_TRACE_T`, `PCB_VIA_T`, `PCB_PAD_T` of the board model). -/
inductive PCB_TYPE where
  | PCB_ARC_T
  | PCB_TRACE_T
  | PCB_VIA_T
  | PCB_PAD_T
  | PCB_ZONE_T
  | PCB_OTHER_T
deriving DecidableEq, Repr

/-- Keepout-rule face of a board `ZONE` (zone.h is outside this snapshot;
fields mirror the getters called by `checkKeepout`).  Footprints are
identified by `Nat` handles standing in for `FOOTPRINT*` pointers. -/
structure ZONE where
  GetDoNotAllowTracks : Bool
  GetDoNotAllowVias : Bool
  GetDoNotAllowPads : Bool
  GetDoNotAllowFootprints : Bool
  GetParentFootprint : Option Nat
deriving DecidableEq, Repr

/-- Originating board object of a router item (`BOARD_ITEM*` parent).
`btype` models `Type()` (the name `Type` is reserved in Lean);
`zone = some z` models a successful `dynamic_cast<ZONE*>`. -/
structure BOARD_ITEM where
  btype : PCB_TYPE
  GetLayer : Int
  GetParentFootprint : Option Nat
  zone : Option ZONE
deriving DecidableEq, Repr

/-- Board-edge-cuts layer id (`Edge_Cuts` of layer_ids.h; the concrete
numeric value is irrelevant to the collision logic). -/
def Edge_Cuts : Int := 44

/-- Router item kind tags (`ITEM::PnsKind` of pns_item.h). -/
inductive KIND where
  | ARC_T
  | LINE_T
  | SEGMENT_T
  | VIA_T
  | JOINT_T
  | SOLID_T
  | DIFF_PAIR_T
  | HOLE_T
deriving DecidableEq, Repr

/-- Router item (`PNS::ITEM`, including its `HOLE` subclass).  `uid`
models the object's address: the engine compares items, holes and
parent-pad-via links only by pointer identity.  A HOLE is itself an ITEM
whose `m_parentPadVia` names its owning pad/via; a pad/via's `m_hole`
holds its hole; a LINE's `m_endsWithVia` holds the via attached at its
end (`EndsWithVia()` / `Via()` of pns_line.h).  `m_width` models
`LINE::Width()` and is consulted only for LINE-kind items. -/
inductive ITEM where
  | mk (uid : Nat) (m_kind : KIND) (m_net : Int) (m_layers : LAYER_RANGE)
       (m_shape : SHAPE) (m_parent : Option BOARD_ITEM) (m_hole : Option ITEM)
       (m_parentPadVia : Option Nat) (m_width : Int) (m_endsWithVia : Option ITEM)

def ITEM.uid : ITEM → Nat
  | ITEM.mk u _ _ _ _ _ _ _ _ _ => u

def ITEM.m_kind : ITEM → KIND
  | ITEM.mk _ k _ _ _ _ _ _ _ _ => k

def ITEM.m_net : ITEM → Int
  | ITEM.mk _ _ n _ _ _ _ _ _ _ => n

def ITEM.m_layers : ITEM → LAYER_RANGE
  | ITEM.mk _ _ _ l _ _ _ _ _ _ => l

def ITEM.Shape : ITEM → SHAPE
  | ITEM.mk _ _ _ _ s _ _ _ _ _ => s

def ITEM.m_parent : ITEM → Option BOARD_ITEM
  | ITEM.mk _ _ _ _ _ p _ _ _ _ => p

def ITEM.Hole : ITEM → Option ITEM
  | ITEM.mk _ _ _ _ _ _ h _ _ _ => h

def ITEM.ParentPadVia : ITEM → Option Nat
  | ITEM.mk _ _ _ _ _ _ _ pv _ _ => pv

def ITEM.Width : ITEM → Int
  | ITEM.mk _ _ _ _ _ _ _ _ w _ => w

def ITEM.EndsWithVia : ITEM → Option ITEM
  | ITEM.mk _ _ _ _ _ _ _ _ _ v => v

/-- Modelled from the spec: the single representative layer of an item,
`ITEM::Layer() = Layers().Start()` of pns_item.h (missing from src/). -/
def ITEM.Layer (i : ITEM) : Int := i.m_layers.Start

/-- Modelled from the spec: "values < 0 mean no net assigned / free pad"
and "Free pad: a pad not yet assigned to any net".  Pads are SOLID-kind
items in the router; `ITEM::IsFreePad()` is declared in pns_item.h,
which is missing from src/. -/
def ITEM.IsFreePad (i : ITEM) : Bool :=
  i.m_kind == KIND.SOLID_T && decide (i.m_net < 0)

/-- Transient collision record (`PNS::NODE::OBSTACLE`); the head and the
colliding item are stored by identity (pointer), the clearance is the
violated value. -/
structure OBSTACLE where
  m_head : Nat
  m_item : Nat
  m_clearance : Int
deriving DecidableEq, Repr

/-- Query-shaping options of a collision search
(`COLLISION_SEARCH_OPTIONS`); `m_overrideClearance` is "unset" when
negative, matching the source's `>= 0` guard. -/
structure COLLISION_SEARCH_OPTIONS where
  m_differentNetsOnly : Bool
  m_overrideClearance : Int
deriving DecidableEq, Repr

/-- Per-query scratch state (`COLLISION_SEARCH_CONTEXT`): options plus
the accumulating obstacle set. -/
structure COLLISION_SEARCH_CONTEXT where
  options : COLLISION_SEARCH_OPTIONS
  obstacles : List OBSTACLE
deriving DecidableEq, Repr

/-- Modelled from the spec: the obstacle set "must de-duplicate identical
(head, item) pairs"; the `std::set<OBSTACLE>` comparator lives in
pns_node.h, which is missing from src/.  Insertion keeps the first record
for a given (head, item) identity pair. -/
def COLLISION_SEARCH_CONTEXT.insertObstacle (c : COLLISION_SEARCH_CONTEXT)
    (o : OBSTACLE) : COLLISION_SEARCH_CONTEXT :=
  if c.obstacles.any (fun e => e.m_head == o.m_head && e.m_item == o.m_item) then
    c
  else
    { c with obstacles := c.obstacles ++ [o] }

/-- Rule-resolver capability (`PNS::RULE_RESOLVER`), consulted through
the node; items are referred to by identity. -/
structure RULE_RESOLVER where
  ClearanceEpsilon : Int
  IsInNetTie : Nat → Bool
  IsNetTieExclusion : Nat → VECTOR2I → Nat → Bool

/-- Modelled from the spec: "GetCollisionQueryScope (enum: default vs.
all rules)"; the enum itself lives in pns_node.h, missing from src/. -/
inductive CQS where
  | CQS_ALL_RULES
  | CQS_DEFAULT
deriving DecidableEq, Repr

/-- Node capability (`PNS::NODE`) as consumed by the collision engine. -/
structure NODE where
  GetRuleResolver : RULE_RESOLVER
  GetClearance : Nat → Nat → Int
  GetCollisionQueryScope : CQS
  QueryEdgeExclusions : VECTOR2I → Bool

/-- Router interface capability: flashing state per item and layer
(`ROUTER_IFACE::IsFlashedOnLayer`). -/
structure ROUTER_IFACE where
  IsFlashedOnLayer : Nat → Int → Bool

/-- Oracles of the external geometric shape layer.  `Collide a b m` is
`a->Collide( b, m )`; `CollideAt a b m` is the variant with the
penetration-depth and contact-point out-parameters, returning them on a
hit. -/
structure SHAPE_ORACLE where
  Collide : SHAPE → SHAPE → Int → Bool
  CollideAt : SHAPE → SHAPE → Int → Option (Int × VECTOR2I)

/-- Ambient collaborators of a collision query: the shape layer and the
interface fetched from the `ROUTER::GetInstance()` singleton (`none`
when the singleton or its interface is null). -/
structure ENV where
  shapes : SHAPE_ORACLE
  iface : Option ROUTER_IFACE

/-- Keepout predicate of `ITEM::collideSimple`
(src/pcbnew/router/pns_item.cpp:95-115): does `aKeepout` disallow the
board object `aOther`? -/
def checkKeepout (aKeepout : ZONE) (aOther : BOARD_ITEM) : Bool :=
  if aKeepout.GetDoNotAllowTracks
      && (aOther.btype == PCB_TYPE.PCB_ARC_T || aOther.btype == PCB_TYPE.PCB_TRACE_T) then
    true
  else if aKeepout.GetDoNotAllowVias && aOther.btype == PCB_TYPE.PCB_VIA_T then
    true
  else if aKeepout.GetDoNotAllowPads && aOther.btype == PCB_TYPE.PCB_PAD_T then
    true
  else if aKeepout.GetDoNotAllowFootprints && aOther.btype == PCB_TYPE.PCB_PAD_T then
    aKeepout.GetParentFootprint.isNone
      || aKeepout.GetParentFootprint != aOther.GetParentFootprint
  else
    false

/-- Hole sub-check (a) of `ITEM::collideSimple`
(src/pcbnew/router/pns_item.cpp:142-165): this item's hole against the
head's shape, widened by the head's half line width.  The
`else { return true; }` first-hit branch of the source is unreachable
with a context present. -/
def ITEM.holeCheckA (self aHead : ITEM) (env : ENV) (aNode : NODE)
    (lineWidthH clearanceEpsilon : Int) (c : COLLISION_SEARCH_CONTEXT) :
    Bool × COLLISION_SEARCH_CONTEXT :=
  match self.Hole with
  | some holeI =>
    if holeI.ParentPadVia != some aHead.uid && holeI.uid != aHead.uid then
      let holeClearance := aNode.GetClearance self.uid holeI.uid
      if env.shapes.Collide holeI.Shape aHead.Shape
          (holeClearance + lineWidthH - clearanceEpsilon) then
        (true, c.insertObstacle
          { m_head := aHead.uid, m_item := holeI.uid, m_clearance := holeClearance })
      else (false, c)
    else (false, c)
  | none => (false, c)

/-- Hole sub-check (b) (src/pcbnew/router/pns_item.cpp:167-191): the
head's hole against this item's shape, widened by this item's half line
width. -/
def ITEM.holeCheckB (self aHead : ITEM) (env : ENV) (aNode : NODE)
    (lineWidthI clearanceEpsilon : Int) (c : COLLISION_SEARCH_CONTEXT) :
    Bool × COLLISION_SEARCH_CONTEXT :=
  match aHead.Hole with
  | some holeH =>
    if holeH.ParentPadVia != some self.uid && holeH.uid != self.uid then
      let holeClearance := aNode.GetClearance self.uid holeH.uid
      if env.shapes.Collide holeH.Shape self.Shape
          (holeClearance + lineWidthI - clearanceEpsilon) then
        (true, c.insertObstacle
          { m_head := holeH.uid, m_item := self.uid, m_clearance := holeClearance })
      else (false, c)
    else (false, c)
  | none => (false, c)

/-- Hole sub-check (c) (src/pcbnew/router/pns_item.cpp:193-221): hole
against hole, when both exist and are distinct objects. -/
def ITEM.holeCheckC (self aHead : ITEM) (env : ENV) (aNode : NODE)
    (clearanceEpsilon : Int) (c : COLLISION_SEARCH_CONTEXT) :
    Bool × COLLISION_SEARCH_CONTEXT :=
  match self.Hole, aHead.Hole with
  | some holeI, some holeH =>
    if holeI.uid != holeH.uid then
      let holeClearance := aNode.GetClearance holeI.uid holeH.uid
      if env.shapes.Collide holeI.Shape holeH.Shape
          (holeClearance - clearanceEpsilon) then
        (true, c.insertObstacle
          { m_head := holeH.uid, m_item := holeI.uid, m_clearance := holeClearance })
      else (false, c)
    else (false, c)
  | _, _ => (false, c)

/-- Hole sub-check block (src/pcbnew/router/pns_item.cpp:139-222): runs
(a), (b), (c) in order, accumulating obstacles into the context;
`collisionsFound` is the disjunction of the three hits. -/
def ITEM.holeChecks (self aHead : ITEM) (env : ENV) (aNode : NODE)
    (lineWidthI lineWidthH clearanceEpsilon : Int)
    (c : COLLISION_SEARCH_CONTEXT) : Bool × COLLISION_SEARCH_CONTEXT :=
  let stA := self.holeCheckA aHead env aNode lineWidthH clearanceEpsilon c
  let stB := self.holeCheckB aHead env aNode lineWidthI clearanceEpsilon stA.2
  let stC := self.holeCheckC aHead env aNode clearanceEpsilon stB.2
  (stA.1 || stB.1 || stC.1, stC.2)

/-- Shape-versus-shape phase of `ITEM::collideSimple`
(src/pcbnew/router/pns_item.cpp:256-323): with a non-negative resolved
clearance, run the slow overlap test (castellation or net-tie case, with
exclusion-based suppression) or the fast overlap test, then return
`collisionsFound`.  The first-hit `else { return true; }` branches of the
source are unreachable with a context present. -/
def ITEM.shapePhase (self aHead : ITEM) (env : ENV) (aNode : NODE)
    (lineWidthI lineWidthH clearanceEpsilon clearance : Int)
    (collisionsFound : Bool) (c1 : COLLISION_SEARCH_CONTEXT) :
    Bool × COLLISION_SEARCH_CONTEXT :=
  if 0 ≤ clearance then
    -- checkCastellation = parent is on the Edge_Cuts layer (line 258) and
    -- checkNetTie = resolver->IsInNetTie(this) (line 259), inlined at each use
    if ((match self.m_parent with
        | some p => decide (p.GetLayer = Edge_Cuts)
        | none => false) || aNode.GetRuleResolver.IsInNetTie self.uid) = true then
      -- Slow method (lines 263-290)
      match env.shapes.CollideAt aHead.Shape self.Shape
          (clearance + lineWidthH + lineWidthI - clearanceEpsilon) with
      | some (_actual, pos) =>
        if ((match self.m_parent with
            | some p => decide (p.GetLayer = Edge_Cuts)
            | none => false) && aNode.QueryEdgeExclusions pos) = true then (false, c1)
        else if (aNode.GetRuleResolver.IsInNetTie self.uid
            && aNode.GetRuleResolver.IsNetTieExclusion aHead.uid pos self.uid) = true then
          (false, c1)
        else
          (true, c1.insertObstacle
            { m_head := aHead.uid, m_item := self.uid, m_clearance := clearance })
      | none => (collisionsFound, c1)
    else
      -- Fast method (lines 293-320)
      if env.shapes.Collide aHead.Shape self.Shape
          (clearance + lineWidthH + lineWidthI - clearanceEpsilon) then
        (true, c1.insertObstacle
          { m_head := aHead.uid, m_item := self.uid, m_clearance := clearance })
      else (collisionsFound, c1)
  else (collisionsFound, c1)

/-- Body of `ITEM::collideSimple` (src/pcbnew/router/pns_item.cpp:49-324)
once a search context is present.  Every `else { return true; }` first-hit
branch of the source is guarded by `if( aCtx )` and is therefore
unreachable here; the context's obstacle set is threaded as state.  The
result is the returned boolean together with the context state at exit
(the source mutates the caller's context in place, so obstacle insertions
survive even on paths that return false). -/
def ITEM.collideSimpleCtx (self aHead : ITEM) (env : ENV) (aNode : NODE)
    (c0 : COLLISION_SEARCH_CONTEXT) : Bool × COLLISION_SEARCH_CONTEXT :=
  let clearanceEpsilon := aNode.GetRuleResolver.ClearanceEpsilon
  -- we cannot be self-colliding (line 66)
  if aHead.uid = self.uid then (false, c0)
  else
  -- SHAPE_POLY_LINE widths are passed as part of the clearance (lines 71-75)
  let lineWidthI : Int := if self.m_kind == KIND.LINE_T then Int.tdiv self.Width 2 else 0
  let lineWidthH : Int := if aHead.m_kind == KIND.LINE_T then Int.tdiv aHead.Width 2 else 0
  -- same nets? no collision! (lines 78-82)
  if c0.options.m_differentNetsOnly = true ∧ self.m_net = aHead.m_net
      ∧ 0 ≤ self.m_net ∧ 0 ≤ aHead.m_net then (false, c0)
  -- a pad associated with a "free" pin doesn't have a net yet (lines 85-89)
  else if c0.options.m_differentNetsOnly = true
      ∧ (self.IsFreePad || aHead.IsFreePad) = true then (false, c0)
  -- completely different layers? (line 92)
  else if self.m_layers.Overlaps aHead.m_layers = false then (false, c0)
  -- keepout filter (lines 117-124)
  else if (match self.m_parent.bind BOARD_ITEM.zone, aHead.m_parent with
      | some zA, some pH => !checkKeepout zA pH
      | _, _ => false) = true then (false, c0)
  else if (match aHead.m_parent.bind BOARD_ITEM.zone, self.m_parent with
      | some zB, some pI => !checkKeepout zB pI
      | _, _ => false) = true then (false, c0)
  else
  -- flashing determination via the router singleton (lines 127-137)
  let thisNotFlashed : Bool := match env.iface with
    | some f => !f.IsFlashedOnLayer self.uid aHead.Layer
    | none => false
  let otherNotFlashed : Bool := match env.iface with
    | some f => !f.IsFlashedOnLayer aHead.uid self.Layer
    | none => false
  -- hole sub-checks (lines 139-222), accumulating into the context
  let holePhase : Bool × COLLISION_SEARCH_CONTEXT :=
    if aNode.GetCollisionQueryScope == CQS.CQS_ALL_RULES
        || thisNotFlashed || otherNotFlashed then
      self.holeChecks aHead env aNode lineWidthI lineWidthH clearanceEpsilon c0
    else (false, c0)
  -- non-flashed multilayer exits (lines 226-230)
  if (!aHead.m_layers.IsMultilayer && thisNotFlashed) = true then (false, holePhase.2)
  else if (!self.m_layers.IsMultilayer && otherNotFlashed) = true then (false, holePhase.2)
  else
  -- clearance resolution (lines 232-241)
  let clearance : Int :=
    if 0 ≤ c0.options.m_overrideClearance then c0.options.m_overrideClearance
    else aNode.GetClearance self.uid aHead.uid
  -- bogus collisions between an item and its own hole (lines 244-254)
  if (match self.Hole with
      | some holeI => holeI.ParentPadVia == some aHead.uid
      | none => false) = true then (false, holePhase.2)
  else if (match aHead.Hole with
      | some holeH => holeH.ParentPadVia == some self.uid
      | none => false) = true then (false, holePhase.2)
  else if (match aHead.Hole with
      | some holeH => holeH.uid == self.uid
      | none => false) = true then (false, holePhase.2)
  else if (match self.Hole with
      | some holeI => holeI.uid == aHead.uid
      | none => false) = true then (false, holePhase.2)
  else
    self.shapePhase aHead env aNode lineWidthI lineWidthH clearanceEpsilon
      clearance holePhase.1 holePhase.2

/-- `ITEM::collideSimple` (src/pcbnew/router/pns_item.cpp:49-324).  The
debug printf at line 62 reads `aCtx->obstacles.size()` before any null
check, so a call with no search context dereferences a null pointer; the
crash is modelled as `none`.  With a context present the body is
`collideSimpleCtx`. -/
def ITEM.collideSimple (self aHead : ITEM) (env : ENV) (aNode : NODE)
    (aCtx : Option COLLISION_SEARCH_CONTEXT) :
    Option (Bool × COLLISION_SEARCH_CONTEXT) :=
  match aCtx with
  | none => none
  | some c0 => some (ITEM.collideSimpleCtx self aHead env aNode c0)

/-- `ITEM::Collide` (src/pcbnew/router/pns_item.cpp:327-353): the core
pairwise test, plus the special cases for head LINEs with a via attached
at the end.  The context pointer is shared by the sub-calls, so each
sub-call sees the context state left by the previous one. -/
def ITEM.Collide (self aOther : ITEM) (env : ENV) (aNode : NODE)
    (aCtx : Option COLLISION_SEARCH_CONTEXT) :
    Option (Bool × COLLISION_SEARCH_CONTEXT) := do
  let (r1, ctx1) ← self.collideSimple aOther env aNode aCtx
  if r1 then return (true, ctx1)
  let (r2, ctx2) ←
    if self.m_kind == KIND.LINE_T then
      match self.EndsWithVia with
      | some v => v.collideSimple aOther env aNode (some ctx1)
      | none => pure (false, ctx1)
    else pure (false, ctx1)
  if r2 then return (true, ctx2)
  let (r3, ctx3) ←
    if aOther.m_kind == KIND.LINE_T then
      match aOther.EndsWithVia with
      | some v => v.collideSimple self env aNode (some ctx2)
      | none => pure (false, ctx2)
    else pure (false, ctx2)
  if r3 then return (true, ctx3)
  return (false, ctx3)

/-- Insertion into the `std::set<PNS::ITEM*> rv` of `deduplicate`
(src/qa/tools/pns/pns_log_file.cpp): the set is keyed on the pointer
value, modelled as a `Nat` handle. -/
def setInsertPtr (rv : List Nat) (p : Nat) : List Nat :=
  if rv.contains p then rv else rv ++ [p]

/-- Inner loop of `deduplicate` (src/qa/tools/pns/pns_log_file.cpp:252-264):
iterates over the elements of `rv` (second argument, a snapshot of the set
at loop entry — live-iterator subtleties cannot arise because the loop
body only runs when the set is non-empty, and the set provably stays
empty), with the insertion of `item` nested INSIDE the loop body exactly
as in the source, and a break once `comparePnsItems` finds a duplicate.
`isDuplicate` is false whenever the insert statement is reached, because
the duplicate branch breaks immediately after setting it. -/
def dedupInner (cmp : Nat → Nat → Bool) (item : Nat) :
    List Nat → List Nat → List Nat
  | rv, [] => rv
  | rv, ritem :: rest =>
      if cmp ritem item then rv
      else dedupInner cmp item (setInsertPtr rv item) rest

/-- `deduplicate` (src/qa/tools/pns/pns_log_file.cpp:247-269), with
`comparePnsItems` abstracted to the comparator `cmp` (its definition is
irrelevant here: the result does not depend on it). -/
def deduplicate (cmp : Nat → Nat → Bool) (items : List Nat) : List Nat :=
  items.foldl (fun rv item => dedupInner cmp item rv rv) []

/-! Concrete fixtures used by counterexamples and witnesses. -/

/-- Shape-layer oracle that reports overlap for every pair and margin,
with contact point at the origin: "shapes occupying the same space". -/
def oracleAll : SHAPE_ORACLE :=
  { Collide := fun _ _ _ => true
    CollideAt := fun _ _ _ => some (0, { x := 0, y := 0 }) }

/-- Environment with the always-colliding oracle and no router interface
(the singleton returns null, so flashing checks are skipped). -/
def envTrue : ENV := { shapes := oracleAll, iface := none }

/-- Rule resolver with zero epsilon and no net-tie rules. -/
def resolverD : RULE_RESOLVER :=
  { ClearanceEpsilon := 0
    IsInNetTie := fun _ => false
    IsNetTieExclusion := fun _ _ _ => false }

/-- Node resolving every pair to clearance 10, default query scope, no
edge exclusions. -/
def nodeD : NODE :=
  { GetRuleResolver := resolverD
    GetClearance := fun _ _ => 10
    GetCollisionQueryScope := CQS.CQS_DEFAULT
    QueryEdgeExclusions := fun _ => false }

/-- Accumulation context with `differentNetsOnly` off and no override. -/
def ctx0 : COLLISION_SEARCH_CONTEXT :=
  { options := { m_differentNetsOnly := false, m_overrideClearance := -1 }
    obstacles := [] }

/-- Accumulation context requesting "different nets only". -/
def ctxDNO : COLLISION_SEARCH_CONTEXT :=
  { options := { m_differentNetsOnly := true, m_overrideClearance := -1 }
    obstacles := [] }

/-- Through-board layer span 0..3. -/
def layerAll : LAYER_RANGE := { Start := 0, End := 3 }

/-- Single-layer span 0..0. -/
def layer0 : LAYER_RANGE := { Start := 0, End := 0 }

/-- A via on net 5, attached at the end of `lineL`. -/
def viaV : ITEM := ITEM.mk 11 KIND.VIA_T 5 layerAll ⟨101⟩ none none none 0 none

/-- A head line on net 5, width 8, ending with the attached via `viaV`. -/
def lineL : ITEM := ITEM.mk 10 KIND.LINE_T 5 layer0 ⟨100⟩ none none none 8 (some viaV)

/-- A free pad: SOLID-kind item with net id −1. -/
def padF : ITEM := ITEM.mk 20 KIND.SOLID_T (-1) layer0 ⟨102⟩ none none none 0 none

/-- A plain segment on net 2 overlapping `padF` geometrically. -/
def segB : ITEM := ITEM.mk 21 KIND.SEGMENT_T 2 layer0 ⟨103⟩ none none none 0 none

/-! Theorems. -/

/-- C10: for every comparator and every input vector of item pointers —
non-empty ones with non-duplicate items included — `deduplicate` returns
the empty set: the insertion is nested inside the loop over the
initially-empty result set, so the inner loop body never executes for the
first item and no item is ever inserted. -/
theorem deduplicate_always_empty (cmp : Nat → Nat → Bool) (items : List Nat) :
    deduplicate cmp items = [] := by
  induction items with
  | nil => rfl
  | cons i is ih =>
      simp only [deduplicate, List.foldl_cons] at ih ⊢
      simpa [dedupInner] using ih

/-- C2 (failing evaluation): calling `collideSimple` with no search
context is NOT well-defined — the debug printf at pns_item.cpp:62 reads
`aCtx->obstacles.size()` before the null check, dereferencing the absent
context, so every such call crashes instead of running in first-hit
mode. -/
theorem collideSimple_null_context_crashes (self aHead : ITEM) (env : ENV)
    (aNode : NODE) :
    ITEM.collideSimple self aHead env aNode none = none := rfl

/-! Helper lemmas about the early-exit filters of `collideSimpleCtx`. -/

/-- Identity filter: the core pairwise test never self-collides and
leaves the context untouched. -/
theorem collideSimpleCtx_self (i : ITEM) (env : ENV) (aNode : NODE)
    (c : COLLISION_SEARCH_CONTEXT) :
    ITEM.collideSimpleCtx i i env aNode c = (false, c) := by
  rw [ITEM.collideSimpleCtx, if_pos rfl]

/-- Net filter: with `differentNetsOnly` and identical non-negative nets
the core test exits with no collision and no obstacle. -/
theorem collideSimpleCtx_sameNet (self aHead : ITEM) (env : ENV) (aNode : NODE)
    (c : COLLISION_SEARCH_CONTEXT)
    (hdno : c.options.m_differentNetsOnly = true)
    (hnet : self.m_net = aHead.m_net)
    (hs : 0 ≤ self.m_net) (hh : 0 ≤ aHead.m_net) :
    ITEM.collideSimpleCtx self aHead env aNode c = (false, c) := by
  rw [ITEM.collideSimpleCtx]
  by_cases h : aHead.uid = self.uid
  · rw [if_pos h]
  · rw [if_neg h, if_pos ⟨hdno, hnet, hs, hh⟩]

/-- Free-pad filter: with `differentNetsOnly`, a pair containing a free
pad exits with no collision and no obstacle (either through the same-net
branch or through the free-pad branch right after it). -/
theorem collideSimpleCtx_freePad (self aHead : ITEM) (env : ENV) (aNode : NODE)
    (c : COLLISION_SEARCH_CONTEXT)
    (hdno : c.options.m_differentNetsOnly = true)
    (hfree : (self.IsFreePad || aHead.IsFreePad) = true) :
    ITEM.collideSimpleCtx self aHead env aNode c = (false, c) := by
  rw [ITEM.collideSimpleCtx]
  by_cases h : aHead.uid = self.uid
  · rw [if_pos h]
  · rw [if_neg h]
    by_cases h2 : c.options.m_differentNetsOnly = true ∧ self.m_net = aHead.m_net
        ∧ 0 ≤ self.m_net ∧ 0 ≤ aHead.m_net
    · rw [if_pos h2]
    · rw [if_neg h2, if_pos ⟨hdno, hfree⟩]

/-- The hole sub-check block is the identity when neither item has a
hole. -/
theorem holeChecks_none (self aHead : ITEM) (env : ENV) (aNode : NODE)
    (lwI lwH eps : Int) (c : COLLISION_SEARCH_CONTEXT)
    (hI : self.Hole = none) (hH : aHead.Hole = none) :
    ITEM.holeChecks self aHead env aNode lwI lwH eps c = (false, c) := by
  simp [ITEM.holeChecks, ITEM.holeCheckA, ITEM.holeCheckB, ITEM.holeCheckC, hI, hH]

/-- The shape-versus-shape phase is a no-op when the resolved clearance
is negative: no geometric test runs and `collisionsFound` is passed
through. -/
theorem shapePhase_negClearance (self aHead : ITEM) (env : ENV) (aNode : NODE)
    (lwI lwH eps clearance : Int) (found : Bool)
    (c1 : COLLISION_SEARCH_CONTEXT) (h : clearance < 0) :
    ITEM.shapePhase self aHead env aNode lwI lwH eps clearance found c1 =
      (found, c1) := by
  rw [ITEM.shapePhase, if_neg (by omega)]

/-- C7: with no override clearance supplied and a negative resolver
clearance for the pair (and no holes in play), `collideSimple` performs
no shape-vs-shape geometric test — the environment's oracles are
arbitrary and cannot influence the result — and exits reporting no
collision and recording no obstacle. -/
theorem collideSimple_negative_clearance (self aHead : ITEM) (env : ENV)
    (aNode : NODE) (ctx : COLLISION_SEARCH_CONTEXT)
    (hI : self.Hole = none) (hH : aHead.Hole = none)
    (hovr : ctx.options.m_overrideClearance < 0)
    (hneg : aNode.GetClearance self.uid aHead.uid < 0) :
    ITEM.collideSimple self aHead env aNode (some ctx) = some (false, ctx) := by
  simp only [ITEM.collideSimple, ITEM.collideSimpleCtx, hI, hH]
  rw [holeChecks_none self aHead env aNode _ _ _ _ hI hH]
  simp only [ite_self]
  rw [if_neg (by omega : ¬ 0 ≤ ctx.options.m_overrideClearance)]
  rw [shapePhase_negClearance self aHead env aNode _ _ _ _ _ _ hneg]
  simp only [ite_self]

/-- Assembly lemma for `Collide`: when the core test and every applicable
attached-via sub-test return no collision and leave the context unchanged,
`Collide` returns no collision and leaves the context unchanged. -/
theorem Collide_false (self aOther : ITEM) (env : ENV) (aNode : NODE)
    (ctx : COLLISION_SEARCH_CONTEXT)
    (h1 : ITEM.collideSimpleCtx self aOther env aNode ctx = (false, ctx))
    (h2 : ∀ v, self.EndsWithVia = some v → (self.m_kind == KIND.LINE_T) = true →
          ITEM.collideSimpleCtx v aOther env aNode ctx = (false, ctx))
    (h3 : ∀ v, aOther.EndsWithVia = some v → (aOther.m_kind == KIND.LINE_T) = true →
          ITEM.collideSimpleCtx v self env aNode ctx = (false, ctx)) :
    ITEM.Collide self aOther env aNode (some ctx) = some (false, ctx) := by
  by_cases hk1 : (self.m_kind == KIND.LINE_T) = true
  · cases hEv1 : self.EndsWithVia with
    | some v =>
        by_cases hk2 : (aOther.m_kind == KIND.LINE_T) = true
        · cases hEv2 : aOther.EndsWithVia with
          | some w =>
              simp [ITEM.Collide, ITEM.collideSimple, h1, hk1, hEv1,
                h2 v hEv1 hk1, hk2, hEv2, h3 w hEv2 hk2]
          | none =>
              simp [ITEM.Collide, ITEM.collideSimple, h1, hk1, hEv1,
                h2 v hEv1 hk1, hk2, hEv2]
        · simp [ITEM.Collide, ITEM.collideSimple, h1, hk1, hEv1,
            h2 v hEv1 hk1, hk2]
    | none =>
        by_cases hk2 : (aOther.m_kind == KIND.LINE_T) = true
        · cases hEv2 : aOther.EndsWithVia with
          | some w =>
              simp [ITEM.Collide, ITEM.collideSimple, h1, hk1, hEv1, hk2, hEv2,
                h3 w hEv2 hk2]
          | none =>
              simp [ITEM.Collide, ITEM.collideSimple, h1, hk1, hEv1, hk2, hEv2]
        · simp [ITEM.Collide, ITEM.collideSimple, h1, hk1, hEv1, hk2]
  · by_cases hk2 : (aOther.m_kind == KIND.LINE_T) = true
    · cases hEv2 : aOther.EndsWithVia with
      | some w =>
          simp [ITEM.Collide, ITEM.collideSimple, h1, hk1, hk2, hEv2,
            h3 w hEv2 hk2]
      | none =>
          simp [ITEM.Collide, ITEM.collideSimple, h1, hk1, hk2, hEv2]
    · simp [ITEM.Collide, ITEM.collideSimple, h1, hk1, hk2]

/-- Node whose rule resolver returns a negative clearance for every pair
(clearance explicitly disabled by policy). -/
def nodeNeg : NODE :=
  { GetRuleResolver := resolverD
    GetClearance := fun _ _ => -1
    GetCollisionQueryScope := CQS.CQS_DEFAULT
    QueryEdgeExclusions := fun _ => false }

/-- Witness for the negative-clearance policy theorem at a concrete
input: two overlapping hole-free items, no override, resolver clearance
−1; the query reports no collision and records nothing. -/
theorem collideSimple_negative_clearance_witness :
    ITEM.Hole padF = none ∧ ITEM.Hole segB = none ∧
    ctx0.options.m_overrideClearance < 0 ∧
    nodeNeg.GetClearance (ITEM.uid padF) (ITEM.uid segB) < 0 ∧
    ITEM.collideSimple padF segB envTrue nodeNeg (some ctx0) = some (false, ctx0) :=
  ⟨rfl, rfl, by decide, by decide,
    collideSimple_negative_clearance padF segB envTrue nodeNeg ctx0 rfl rfl
      (by decide) (by decide)⟩

/-- C1 counterexample: a free pad (`padF`, a SOLID with net −1) against a
segment on net 2 whose shape overlaps it (the oracle reports overlap at
every margin, in particular at the clearance the fast path would use),
with `differentNetsOnly` requested: `Collide` reports NO collision — the
free pad is exempted, not checked. -/
theorem collide_freePad_not_checked :
    ITEM.Collide padF segB envTrue nodeD (some ctxDNO) = some (false, ctxDNO) ∧
    envTrue.shapes.Collide (ITEM.Shape segB) (ITEM.Shape padF)
      (nodeD.GetClearance (ITEM.uid padF) (ITEM.uid segB)
        - nodeD.GetRuleResolver.ClearanceEpsilon) = true :=
  ⟨rfl, rfl⟩

/-- C1 (amended): with `differentNetsOnly` requested, if either item is a
free pad the same-net filter is not merely skipped — `collideSimple`
returns "no collision" outright (pns_item.cpp:85-89), and so does
`Collide` including its attached-via sub-tests; geometry is never
evaluated and no obstacle is recorded. -/
theorem collide_freePad_exempt (self aHead : ITEM) (env : ENV) (aNode : NODE)
    (ctx : COLLISION_SEARCH_CONTEXT)
    (hdno : ctx.options.m_differentNetsOnly = true)
    (hfree : (self.IsFreePad || aHead.IsFreePad) = true) :
    ITEM.Collide self aHead env aNode (some ctx) = some (false, ctx) := by
  apply Collide_false
  · exact collideSimpleCtx_freePad self aHead env aNode ctx hdno hfree
  · intro v _ hk
    apply collideSimpleCtx_freePad v aHead env aNode ctx hdno
    have hk' : self.m_kind = KIND.LINE_T := by simpa using hk
    have hA : self.IsFreePad = false := by simp [ITEM.IsFreePad, hk']
    rw [hA, Bool.false_or] at hfree
    rw [hfree, Bool.or_true]
  · intro v _ hk
    apply collideSimpleCtx_freePad v self env aNode ctx hdno
    have hk' : aHead.m_kind = KIND.LINE_T := by simpa using hk
    have hB : aHead.IsFreePad = false := by simp [ITEM.IsFreePad, hk']
    rw [hB, Bool.or_false] at hfree
    rw [hfree, Bool.or_true]

/-- Witness for the amended free-pad theorem at a concrete input. -/
theorem collide_freePad_exempt_witness :
    ctxDNO.options.m_differentNetsOnly = true ∧
    (ITEM.IsFreePad padF || ITEM.IsFreePad segB) = true ∧
    ITEM.Collide padF segB envTrue nodeD (some ctxDNO) = some (false, ctxDNO) :=
  ⟨rfl, by decide,
    collide_freePad_exempt padF segB envTrue nodeD ctxDNO rfl (by decide)⟩

/-- C9: with `differentNetsOnly`, two distinct items carrying the same
non-negative net id — neither a free pad, and any attached via carrying
the item's own net, as a line's terminating via does — never collide and
record no obstacle, whatever the geometry oracle reports. -/
theorem collide_same_net_suppression (self aHead : ITEM) (env : ENV)
    (aNode : NODE) (ctx : COLLISION_SEARCH_CONTEXT)
    (hdist : self.uid ≠ aHead.uid)
    (hdno : ctx.options.m_differentNetsOnly = true)
    (hnet : self.m_net = aHead.m_net)
    (hpos : 0 ≤ self.m_net)
    (hfs : self.IsFreePad = false)
    (hfh : aHead.IsFreePad = false)
    (hvs : ∀ v, self.EndsWithVia = some v → v.m_net = self.m_net)
    (hvh : ∀ v, aHead.EndsWithVia = some v → v.m_net = aHead.m_net) :
    ITEM.Collide self aHead env aNode (some ctx) = some (false, ctx) := by
  have hposH : 0 ≤ aHead.m_net := hnet ▸ hpos
  apply Collide_false
  · exact collideSimpleCtx_sameNet self aHead env aNode ctx hdno hnet hpos hposH
  · intro v hEv _
    exact collideSimpleCtx_sameNet v aHead env aNode ctx hdno
      ((hvs v hEv).trans hnet) (by rw [hvs v hEv]; exact hpos) hposH
  · intro v hEv _
    exact collideSimpleCtx_sameNet v self env aNode ctx hdno
      ((hvh v hEv).trans hnet.symm) (by rw [hvh v hEv]; exact hposH) hpos

/-- A segment on net 7. -/
def segN1 : ITEM := ITEM.mk 50 KIND.SEGMENT_T 7 layer0 ⟨105⟩ none none none 0 none

/-- A second, distinct segment on net 7, geometrically overlapping the
first under the always-colliding oracle. -/
def segN2 : ITEM := ITEM.mk 51 KIND.SEGMENT_T 7 layer0 ⟨106⟩ none none none 0 none

/-- Witness for the same-net suppression theorem at a concrete input:
two distinct same-net segments whose shapes overlap at every margin. -/
theorem collide_same_net_suppression_witness :
    ITEM.uid segN1 ≠ ITEM.uid segN2 ∧
    ctxDNO.options.m_differentNetsOnly = true ∧
    ITEM.m_net segN1 = ITEM.m_net segN2 ∧ 0 ≤ ITEM.m_net segN1 ∧
    ITEM.IsFreePad segN1 = false ∧ ITEM.IsFreePad segN2 = false ∧
    ITEM.Collide segN1 segN2 envTrue nodeD (some ctxDNO) = some (false, ctxDNO) :=
  ⟨by decide, rfl, rfl, by decide, by decide, by decide,
    collide_same_net_suppression segN1 segN2 envTrue nodeD ctxDNO
      (by decide) rfl rfl (by decide) (by decide) (by decide)
      (fun v hv => by simp [segN1, ITEM.EndsWithVia] at hv)
      (fun v hv => by simp [segN2, ITEM.EndsWithVia] at hv)⟩

/-- C3 counterexample: for a LINE ending with an attached via,
`Collide(I, I, ...)` is TRUE — the attached via is tested against the
line itself (pns_item.cpp:336-342) and their geometries overlap — so
self non-collision does not hold for every item and context. -/
theorem collide_self_via_line_counterexample :
    (ITEM.Collide lineL lineL envTrue nodeD (some ctx0)).map Prod.fst
      = some true := rfl

/-- C3 (amended): `collideSimple(I, I)` is always false with no obstacle
recorded (identity filter), and `Collide(I, I)` is false with no obstacle
recorded for every item that is not a LINE ending with an attached via
(for a via-terminated LINE the attached via is additionally tested
against the line itself and can report a collision). -/
theorem collide_self_non_collision (i : ITEM) (env : ENV) (aNode : NODE)
    (ctx : COLLISION_SEARCH_CONTEXT) :
    ITEM.collideSimple i i env aNode (some ctx) = some (false, ctx) ∧
    ((i.m_kind = KIND.LINE_T → i.EndsWithVia = none) →
      ITEM.Collide i i env aNode (some ctx) = some (false, ctx)) := by
  constructor
  · simp only [ITEM.collideSimple]
    exact congrArg some (collideSimpleCtx_self i env aNode ctx)
  · intro hvia
    apply Collide_false
    · exact collideSimpleCtx_self i env aNode ctx
    · intro v hEv hk
      exfalso
      have hk' : i.m_kind = KIND.LINE_T := by simpa using hk
      rw [hvia hk'] at hEv
      exact Option.noConfusion hEv
    · intro v hEv hk
      exfalso
      have hk' : i.m_kind = KIND.LINE_T := by simpa using hk
      rw [hvia hk'] at hEv
      exact Option.noConfusion hEv

/-- Witness for the amended self-non-collision theorem at a concrete
input (a segment, which is not a via-terminated line). -/
theorem collide_self_non_collision_witness :
    ITEM.collideSimple segB segB envTrue nodeD (some ctx0) = some (false, ctx0) ∧
    ITEM.Collide segB segB envTrue nodeD (some ctx0) = some (false, ctx0) :=
  ⟨(collide_self_non_collision segB envTrue nodeD ctx0).1,
    (collide_self_non_collision segB envTrue nodeD ctx0).2
      (fun h => by simp [segB, ITEM.m_kind] at h)⟩

/-- The hole sub-check block skips entirely when this item's hole IS the
head (sub-check (a) requires `holeI != aHead`) and the head has no hole
of its own. -/
theorem holeChecks_selfHoleIsHead (self aHead : ITEM) (env : ENV) (aNode : NODE)
    (lwI lwH eps : Int) (c : COLLISION_SEARCH_CONTEXT) (h : ITEM)
    (hS : self.Hole = some h) (hEq : h.uid = aHead.uid) (hH : aHead.Hole = none) :
    ITEM.holeChecks self aHead env aNode lwI lwH eps c = (false, c) := by
  simp [ITEM.holeChecks, ITEM.holeCheckA, ITEM.holeCheckB, ITEM.holeCheckC,
    hS, hH, hEq]

/-- The hole sub-check block skips entirely when the head's hole IS this
item (sub-check (b) requires `holeH != this`) and this item has no hole
of its own. -/
theorem holeChecks_headHoleIsSelf (self aHead : ITEM) (env : ENV) (aNode : NODE)
    (lwI lwH eps : Int) (c : COLLISION_SEARCH_CONTEXT) (h : ITEM)
    (hS : aHead.Hole = some h) (hEq : h.uid = self.uid) (hI : self.Hole = none) :
    ITEM.holeChecks self aHead env aNode lwI lwH eps c = (false, c) := by
  simp [ITEM.holeChecks, ITEM.holeCheckA, ITEM.holeCheckB, ITEM.holeCheckC,
    hS, hI, hEq]

/-- A pad/via never collides with its own hole: the pair (parent, hole)
exits through the self-hole exclusions (pns_item.cpp:244-254) with no
obstacle, whatever the geometry. -/
theorem collideSimpleCtx_parent_vs_hole (P H : ITEM) (env : ENV) (aNode : NODE)
    (c : COLLISION_SEARCH_CONTEXT)
    (hPH : P.Hole = some H) (hHH : H.Hole = none) :
    ITEM.collideSimpleCtx P H env aNode c = (false, c) := by
  simp only [ITEM.collideSimpleCtx, hPH, hHH]
  rw [holeChecks_selfHoleIsHead P H env aNode _ _ _ _ H hPH rfl hHH]
  simp [ite_self]

/-- A hole never collides with its own parent pad/via: the pair (hole,
parent) exits through the self-hole exclusions with no obstacle,
whatever the geometry. -/
theorem collideSimpleCtx_hole_vs_parent (P H : ITEM) (env : ENV) (aNode : NODE)
    (c : COLLISION_SEARCH_CONTEXT)
    (hPH : P.Hole = some H) (hHH : H.Hole = none) :
    ITEM.collideSimpleCtx H P env aNode c = (false, c) := by
  simp only [ITEM.collideSimpleCtx, hPH, hHH]
  rw [holeChecks_headHoleIsSelf H P env aNode _ _ _ _ H hPH rfl hHH]
  simp [ite_self]

/-- C4: for every pad/via item P whose hole is H, both `H.Collide(P)` and
`P.Collide(H)` report no collision and record no obstacle, regardless of
geometric overlap between their shapes (the oracles are arbitrary). -/
theorem collide_hole_parent_exclusion (P H : ITEM) (env : ENV) (aNode : NODE)
    (ctx : COLLISION_SEARCH_CONTEXT)
    (hkP : P.m_kind = KIND.SOLID_T ∨ P.m_kind = KIND.VIA_T)
    (hkH : H.m_kind = KIND.HOLE_T)
    (hPH : P.Hole = some H) (hHH : H.Hole = none) :
    ITEM.Collide H P env aNode (some ctx) = some (false, ctx) ∧
    ITEM.Collide P H env aNode (some ctx) = some (false, ctx) := by
  have hkP' : (P.m_kind == KIND.LINE_T) = false := by
    rcases hkP with h | h <;> simp [h]
  have hkH' : (H.m_kind == KIND.LINE_T) = false := by simp [hkH]
  constructor
  · apply Collide_false
    · exact collideSimpleCtx_hole_vs_parent P H env aNode ctx hPH hHH
    · intro v _ hk; rw [hkH'] at hk; exact Bool.noConfusion hk
    · intro v _ hk; rw [hkP'] at hk; exact Bool.noConfusion hk
  · apply Collide_false
    · exact collideSimpleCtx_parent_vs_hole P H env aNode ctx hPH hHH
    · intro v _ hk; rw [hkP'] at hk; exact Bool.noConfusion hk
    · intro v _ hk; rw [hkH'] at hk; exact Bool.noConfusion hk

/-- A through-hole of `padP1`: HOLE-kind item whose parent pad/via link
names the pad's identity. -/
def holeH1 : ITEM := ITEM.mk 61 KIND.HOLE_T 3 layerAll ⟨108⟩ none none (some 60) 0 none

/-- A pad (SOLID) owning `holeH1`. -/
def padP1 : ITEM := ITEM.mk 60 KIND.SOLID_T 3 layer0 ⟨107⟩ none (some holeH1) none 0 none

/-- Node resolving every pair to clearance 10 under the exhaustive
"all rules" query scope, so the hole sub-checks are exercised. -/
def nodeAll : NODE :=
  { GetRuleResolver := resolverD
    GetClearance := fun _ _ => 10
    GetCollisionQueryScope := CQS.CQS_ALL_RULES
    QueryEdgeExclusions := fun _ => false }

/-- Witness for the hole/parent mutual exclusion theorem at a concrete
input: a pad and its own hole under the always-colliding oracle and the
"all rules" scope. -/
theorem collide_hole_parent_exclusion_witness :
    ITEM.Hole padP1 = some holeH1 ∧ ITEM.Hole holeH1 = none ∧
    ITEM.Collide holeH1 padP1 envTrue nodeAll (some ctx0) = some (false, ctx0) ∧
    ITEM.Collide padP1 holeH1 envTrue nodeAll (some ctx0) = some (false, ctx0) :=
  ⟨rfl, rfl,
    (collide_hole_parent_exclusion padP1 holeH1 envTrue nodeAll ctx0
      (Or.inl rfl) rfl rfl rfl).1,
    (collide_hole_parent_exclusion padP1 holeH1 envTrue nodeAll ctx0
      (Or.inl rfl) rfl rfl rfl).2⟩

/-- Keepout exit, this item's side: if this item's originating board
object is a keepout zone that does not disallow the head's board object,
the core test exits with no collision and no obstacle. -/
theorem collideSimpleCtx_keepoutA (self aHead : ITEM) (env : ENV) (aNode : NODE)
    (c : COLLISION_SEARCH_CONTEXT) (z : ZONE) (q p : BOARD_ITEM)
    (hq : self.m_parent = some q) (hqz : q.zone = some z)
    (hp : aHead.m_parent = some p) (hk : checkKeepout z p = false) :
    ITEM.collideSimpleCtx self aHead env aNode c = (false, c) := by
  simp only [ITEM.collideSimpleCtx, hq, hp, Option.some_bind, hqz, hk]
  simp [ite_self]

/-- Keepout exit, head side: symmetric to `collideSimpleCtx_keepoutA`. -/
theorem collideSimpleCtx_keepoutB (self aHead : ITEM) (env : ENV) (aNode : NODE)
    (c : COLLISION_SEARCH_CONTEXT) (z : ZONE) (q p : BOARD_ITEM)
    (hq : aHead.m_parent = some q) (hqz : q.zone = some z)
    (hp : self.m_parent = some p) (hk : checkKeepout z p = false) :
    ITEM.collideSimpleCtx self aHead env aNode c = (false, c) := by
  simp only [ITEM.collideSimpleCtx, hq, hp, Option.some_bind, hqz, hk]
  simp [ite_self]

/-- A keepout zone disallowing vias only. -/
def zoneNoVias : ZONE :=
  { GetDoNotAllowTracks := false
    GetDoNotAllowVias := true
    GetDoNotAllowPads := false
    GetDoNotAllowFootprints := false
    GetParentFootprint := none }

/-- Board object of the no-vias keepout (`dynamic_cast<ZONE*>` succeeds). -/
def keepoutParent : BOARD_ITEM :=
  { btype := PCB_TYPE.PCB_ZONE_T, GetLayer := 0, GetParentFootprint := none
    zone := some zoneNoVias }

/-- Board object of a via. -/
def viaParent : BOARD_ITEM :=
  { btype := PCB_TYPE.PCB_VIA_T, GetLayer := 0, GetParentFootprint := none
    zone := none }

/-- Board object of a track segment. -/
def trackParent : BOARD_ITEM :=
  { btype := PCB_TYPE.PCB_TRACE_T, GetLayer := 0, GetParentFootprint := none
    zone := none }

/-- Router item of the no-vias keepout zone. -/
def keepoutNoVias : ITEM :=
  ITEM.mk 30 KIND.SOLID_T (-1) layer0 ⟨110⟩ (some keepoutParent) none none 0 none

/-- A via item occupying the keepout's space (always-colliding oracle). -/
def viaItem : ITEM :=
  ITEM.mk 31 KIND.VIA_T 1 layer0 ⟨111⟩ (some viaParent) none none 0 none

/-- A track-segment item occupying the same space. -/
def segTrack : ITEM :=
  ITEM.mk 32 KIND.SEGMENT_T 2 layer0 ⟨112⟩ (some trackParent) none none 0 none

/-- C5: the keepout filter.  (1),(2): when either item's originating
board object is a keepout zone that does not disallow the other item's
board object, `collideSimple` exits reporting no collision and recording
no obstacle.  (3): a keepout disallowing only vias disallows exactly
PCB_VIA-type board objects.  (4): a footprint-level keepout (footprints
disallowed, pads not separately disallowed) never disallows a pad of its
own parent footprint.  (5),(6): concretely, a no-vias keepout zone
collides with a via in the same space but not with a track segment
there. -/
theorem collideSimple_keepout_filter :
    (∀ (self aHead : ITEM) (env : ENV) (aNode : NODE)
       (ctx : COLLISION_SEARCH_CONTEXT) (z : ZONE) (q p : BOARD_ITEM),
        self.m_parent = some q → q.zone = some z → aHead.m_parent = some p →
        checkKeepout z p = false →
        ITEM.collideSimple self aHead env aNode (some ctx) = some (false, ctx))
  ∧ (∀ (self aHead : ITEM) (env : ENV) (aNode : NODE)
       (ctx : COLLISION_SEARCH_CONTEXT) (z : ZONE) (q p : BOARD_ITEM),
        aHead.m_parent = some q → q.zone = some z → self.m_parent = some p →
        checkKeepout z p = false →
        ITEM.collideSimple self aHead env aNode (some ctx) = some (false, ctx))
  ∧ (∀ (z : ZONE) (p : BOARD_ITEM),
        z.GetDoNotAllowVias = true → z.GetDoNotAllowTracks = false →
        z.GetDoNotAllowPads = false → z.GetDoNotAllowFootprints = false →
        (checkKeepout z p = true ↔ p.btype = PCB_TYPE.PCB_VIA_T))
  ∧ (∀ (z : ZONE) (p : BOARD_ITEM) (f : Nat),
        z.GetDoNotAllowFootprints = true → z.GetDoNotAllowPads = false →
        z.GetDoNotAllowTracks = false → z.GetDoNotAllowVias = false →
        p.btype = PCB_TYPE.PCB_PAD_T → z.GetParentFootprint = some f →
        p.GetParentFootprint = some f → checkKeepout z p = false)
  ∧ ITEM.collideSimple keepoutNoVias viaItem envTrue nodeD (some ctx0)
      = some (true, { options := ctx0.options
                      obstacles := [{ m_head := 31, m_item := 30, m_clearance := 10 }] })
  ∧ ITEM.collideSimple keepoutNoVias segTrack envTrue nodeD (some ctx0)
      = some (false, ctx0) := by
  refine ⟨?_, ?_, ?_, ?_, rfl, rfl⟩
  · intro self aHead env aNode ctx z q p hq hqz hp hk
    simp only [ITEM.collideSimple]
    exact congrArg some (collideSimpleCtx_keepoutA self aHead env aNode ctx z q p hq hqz hp hk)
  · intro self aHead env aNode ctx z q p hq hqz hp hk
    simp only [ITEM.collideSimple]
    exact congrArg some (collideSimpleCtx_keepoutB self aHead env aNode ctx z q p hq hqz hp hk)
  · intro z p hv ht hpd hf
    simp [checkKeepout, hv, ht, hpd, hf]
  · intro z p f hf hpd ht hv hbt hzf hpf
    simp [checkKeepout, hf, hpd, ht, hv, hbt, hzf, hpf]

/-- Witness for the keepout-filter theorem at a concrete input: the
universally quantified part (1) applied to the no-vias keepout against
the track segment occupying the same space. -/
theorem collideSimple_keepout_filter_witness :
    checkKeepout zoneNoVias trackParent = false ∧
    ITEM.collideSimple keepoutNoVias segTrack envTrue nodeD (some ctx0)
      = some (false, ctx0) :=
  ⟨by decide,
    collideSimple_keepout_filter.1 keepoutNoVias segTrack envTrue nodeD ctx0
      zoneNoVias keepoutParent trackParent rfl rfl rfl (by decide)⟩

/-- C6: in the default (non-castellation, non-net-tie) path, the single
shape-overlap test is invoked with margin exactly
`clearance + halfWidth(head) + halfWidth(this) − clearanceEpsilon`,
where half-width is `Width()/2` for LINE-kind items and 0 otherwise, and
the clearance is the override when supplied (≥ 0) or the resolver's value
for the pair.  The environment's oracle is universally quantified, so the
equality pins the exact margin passed to the shape layer. -/
theorem collideSimple_fast_path_margin (self aHead : ITEM) (env : ENV)
    (aNode : NODE) (ctx : COLLISION_SEARCH_CONTEXT)
    (hne : ¬ aHead.uid = self.uid)
    (hdno : ctx.options.m_differentNetsOnly = false)
    (hlay : self.m_layers.Overlaps aHead.m_layers = true)
    (hpA : self.m_parent = none) (hpB : aHead.m_parent = none)
    (hI : self.Hole = none) (hH : aHead.Hole = none)
    (hiface : env.iface = none)
    (hnt : aNode.GetRuleResolver.IsInNetTie self.uid = false)
    (hcl : 0 ≤ (if 0 ≤ ctx.options.m_overrideClearance
        then ctx.options.m_overrideClearance
        else aNode.GetClearance self.uid aHead.uid)) :
    ITEM.collideSimple self aHead env aNode (some ctx) =
      some (
        if env.shapes.Collide aHead.Shape self.Shape
            ((if 0 ≤ ctx.options.m_overrideClearance
                then ctx.options.m_overrideClearance
                else aNode.GetClearance self.uid aHead.uid)
              + (if aHead.m_kind == KIND.LINE_T then Int.tdiv aHead.Width 2 else 0)
              + (if self.m_kind == KIND.LINE_T then Int.tdiv self.Width 2 else 0)
              - aNode.GetRuleResolver.ClearanceEpsilon) then
          (true, ctx.insertObstacle
            { m_head := aHead.uid, m_item := self.uid
              m_clearance := if 0 ≤ ctx.options.m_overrideClearance
                then ctx.options.m_overrideClearance
                else aNode.GetClearance self.uid aHead.uid })
        else (false, ctx)) := by
  simp only [ITEM.collideSimple, ITEM.collideSimpleCtx, hI, hH]
  rw [holeChecks_none self aHead env aNode _ _ _ _ hI hH]
  simp only [ite_self]
  rw [if_neg hne]
  simp only [hdno, hlay, hpA, hpB, hiface, ITEM.shapePhase, hnt]
  simp [hcl]

/-- A head line of width 8 (half-width 4), not ending in a via. -/
def lineW : ITEM := ITEM.mk 70 KIND.LINE_T 1 layer0 ⟨113⟩ none none none 8 none

/-- A zero-width segment against which `lineW` is tested. -/
def segW : ITEM := ITEM.mk 71 KIND.SEGMENT_T 2 layer0 ⟨114⟩ none none none 0 none

/-- Oracle that collides exactly at margin 14 — the value
`clearance 10 + halfWidth 0 + halfWidth 4 − epsilon 0` — so a collision
demonstrates the margin actually passed to the shape layer. -/
def envMargin : ENV :=
  { shapes := { Collide := fun _ _ m => decide (m = 14)
                CollideAt := fun _ _ _ => none }
    iface := none }

/-- Witness for the fast-path margin theorem at a concrete input: the
line/segment pair collides under the margin-14 oracle, proving the
half-widths and clearance combined additively into the margin. -/
theorem collideSimple_fast_path_margin_witness :
    (0 : Int) ≤ 10 ∧
    ITEM.collideSimple lineW segW envMargin nodeD (some ctx0) =
      some (true, ctx0.insertObstacle
        { m_head := 71, m_item := 70, m_clearance := 10 }) := by
  refine ⟨by decide, ?_⟩
  have h := collideSimple_fast_path_margin lineW segW envMargin nodeD ctx0
    (by decide) rfl (by decide) rfl rfl rfl rfl rfl rfl (by decide)
  rw [h]
  rfl

/-- C8: castellation / net-tie suppression.  When this item's parent is
on the board-edge-cuts layer or this item is in a net-tie, the slow-path
overlap test runs; if it reports contact at a point lying inside a
registered edge exclusion (castellation case) or inside a net-tie
exclusion for this pair (net-tie case), `collideSimple` returns false
and records no obstacle even though the geometry overlaps. -/
theorem collideSimple_castellation_netTie_suppression (self aHead : ITEM)
    (env : ENV) (aNode : NODE) (ctx : COLLISION_SEARCH_CONTEXT)
    (d : Int) (pos : VECTOR2I)
    (hI : self.Hole = none) (hH : aHead.Hole = none)
    (hovr : ctx.options.m_overrideClearance < 0)
    (hhit : env.shapes.CollideAt aHead.Shape self.Shape
        (aNode.GetClearance self.uid aHead.uid
          + (if aHead.m_kind == KIND.LINE_T then Int.tdiv aHead.Width 2 else 0)
          + (if self.m_kind == KIND.LINE_T then Int.tdiv self.Width 2 else 0)
          - aNode.GetRuleResolver.ClearanceEpsilon) = some (d, pos))
    (hsup : ((match self.m_parent with
              | some p => decide (p.GetLayer = Edge_Cuts)
              | none => false) = true ∧ aNode.QueryEdgeExclusions pos = true)
          ∨ (aNode.GetRuleResolver.IsInNetTie self.uid = true
              ∧ aNode.GetRuleResolver.IsNetTieExclusion aHead.uid pos self.uid = true)) :
    ITEM.collideSimple self aHead env aNode (some ctx) = some (false, ctx) := by
  have hsp : ITEM.shapePhase self aHead env aNode
      (if self.m_kind == KIND.LINE_T then Int.tdiv self.Width 2 else 0)
      (if aHead.m_kind == KIND.LINE_T then Int.tdiv aHead.Width 2 else 0)
      aNode.GetRuleResolver.ClearanceEpsilon
      (aNode.GetClearance self.uid aHead.uid) false ctx = (false, ctx) := by
    by_cases hc : 0 ≤ aNode.GetClearance self.uid aHead.uid
    · have hcond : ((match self.m_parent with
          | some p => decide (p.GetLayer = Edge_Cuts)
          | none => false) || aNode.GetRuleResolver.IsInNetTie self.uid) = true := by
        rcases hsup with ⟨h1, _⟩ | ⟨h1, _⟩
        · simp [h1]
        · simp [h1]
      rw [ITEM.shapePhase, if_pos hc, if_pos hcond]
      simp only [hhit]
      rcases hsup with ⟨h1, h2⟩ | ⟨h1, h2⟩
      · rw [if_pos (by rw [h1, h2]; rfl)]
      · by_cases hq : ((match self.m_parent with
            | some p => decide (p.GetLayer = Edge_Cuts)
            | none => false) && aNode.QueryEdgeExclusions pos) = true
        · rw [if_pos hq]
        · rw [if_neg hq, if_pos (by rw [h1, h2]; rfl)]
    · exact shapePhase_negClearance self aHead env aNode _ _ _ _ _ _ (by omega)
  simp only [ITEM.collideSimple, ITEM.collideSimpleCtx, hI, hH]
  rw [holeChecks_none self aHead env aNode _ _ _ _ hI hH]
  simp only [ite_self]
  rw [if_neg (by omega : ¬ 0 ≤ ctx.options.m_overrideClearance)]
  rw [hsp]
  simp only [ite_self]

/-- Board object on the board-edge-cuts layer (castellation case). -/
def edgeParent : BOARD_ITEM :=
  { btype := PCB_TYPE.PCB_OTHER_T, GetLayer := Edge_Cuts
    GetParentFootprint := none, zone := none }

/-- A segment whose parent lies on the edge-cuts layer. -/
def segEdge : ITEM :=
  ITEM.mk 40 KIND.SEGMENT_T 1 layer0 ⟨104⟩ (some edgeParent) none none 0 none

/-- Node registering every point as an edge exclusion (castellated
board edge). -/
def nodeEdge : NODE :=
  { GetRuleResolver := resolverD
    GetClearance := fun _ _ => 10
    GetCollisionQueryScope := CQS.CQS_DEFAULT
    QueryEdgeExclusions := fun _ => true }

/-- Witness for the castellation suppression theorem at a concrete
input: overlapping shapes (slow-path contact at the origin), contact
point inside an edge exclusion — no collision, no obstacle. -/
theorem collideSimple_castellation_suppression_witness :
    ITEM.Hole segEdge = none ∧
    envTrue.shapes.CollideAt (ITEM.Shape segB) (ITEM.Shape segEdge) 10
      = some (0, { x := 0, y := 0 }) ∧
    nodeEdge.QueryEdgeExclusions { x := 0, y := 0 } = true ∧
    ITEM.collideSimple segEdge segB envTrue nodeEdge (some ctx0)
      = some (false, ctx0) :=
  ⟨rfl, rfl, rfl,
    collideSimple_castellation_netTie_suppression segEdge segB envTrue nodeEdge
      ctx0 0 { x := 0, y := 0 } rfl rfl (by decide) rfl
      (Or.inl ⟨by decide, rfl⟩)⟩
